import Mathlib

/-!
Verification of the order-fulfillment saga orchestrator `OrderWorkflow`
(`lesson_7.md`, package `workflows`) against its natural-language
specification.  The workflow is a deterministic, single-threaded state
machine; we embed it shallowly: external activity results are supplied by
an `ActivityEnv` oracle (each activity is invoked at most once per run),
and the approval wait loop consumes an explicit list of `WaitEvent`s, one
per `selector.Select` iteration, exactly as the selector callbacks process
them.  The run records every activity invocation (name and arguments) in
order, plus the successive values assigned to `status.Stage`.
-/

namespace OrderSaga

instance {ε α : Type} [DecidableEq ε] [DecidableEq α] : DecidableEq (Except ε α) := fun x y =>
  match x, y with
  | .ok a, .ok b =>
    if h : a = b then .isTrue (by rw [h]) else .isFalse (by intro hc; cases hc; exact h rfl)
  | .error a, .error b =>
    if h : a = b then .isTrue (by rw [h]) else .isFalse (by intro hc; cases hc; exact h rfl)
  | .ok _, .error _ => .isFalse (by intro hc; cases hc)
  | .error _, .ok _ => .isFalse (by intro hc; cases hc)

/-- `types.LineItem`: a product line in an order. -/
structure LineItem where
  sku : String
  quantity : Int
deriving DecidableEq, Repr

/-- `types.OrderEnrichment`: enriched order data, populated during the
enrichment stage. -/
structure OrderEnrichment where
  customerTier : String := ""
  inventoryOk : Bool := false
  recommendations : List String := []
deriving DecidableEq, Repr

/-- `types.PaymentApproval`: payload of the approve-payment signal. -/
structure PaymentApproval where
  approvedBy : String
deriving DecidableEq, Repr

/-- `types.CancelRequest`: payload of the cancel-order signal. -/
structure CancelRequest where
  reason : String
deriving DecidableEq, Repr

/-- Go error values as the workflow distinguishes them: the three typed
errors of `types` (`PermanentError`, `PaymentTransientError`,
`ValidationError`) and a plain untyped error built by `fmt.Errorf`. -/
inductive GoError where
  | permanent (msg : String)
  | transient (msg : String)
  | validationErr (msg : String)
  | generic (msg : String)
deriving DecidableEq, Repr

/-- The `Error()` message of a Go error value (what `%v` formats). -/
def GoError.message : GoError → String
  | .permanent m => m
  | .transient m => m
  | .validationErr m => m
  | .generic m => m

/-- Whether an error value is a `types.ValidationError`. -/
def GoError.isValidationClass : GoError → Bool
  | .validationErr _ => true
  | _ => false

/-- `types.OrderWorkflowStatus`: the workflow's state record.  The
approval deadline is modelled as an integer timestamp (seconds). -/
structure OrderWorkflowStatus where
  orderID : String := ""
  stage : String := ""
  items : List LineItem := []
  reserved : Bool := false
  paymentApproved : Bool := false
  charged : Bool := false
  cancelled : Bool := false
  lastError : String := ""
  enrichment : OrderEnrichment := {}
  approvalDeadline : Int := 0
  version : String := ""
deriving DecidableEq, Repr

/-- A single argument of an activity invocation. -/
inductive ActivityArg where
  | str (s : String)
  | items (l : List LineItem)
deriving DecidableEq, Repr

/-- One activity invocation as `workflow.ExecuteActivity` issues it:
activity name plus the arguments passed after the context. -/
structure Invocation where
  name : String
  args : List ActivityArg
deriving DecidableEq, Repr

/-- Result oracle for the external activities.  Each field is the outcome
the corresponding activity (after the substrate's retries) reports to this
run; the workflow invokes each at most once.  The compensation and
notification activities' outcomes are listed even though the workflow
discards them (`_ = ...Get(ctx, nil)`). -/
structure ActivityEnv where
  fetchInventorySnapshot : Except GoError Bool
  fetchCustomerProfile : Except GoError String
  fetchRecommendations : Except GoError (List String)
  reserveStock : Except GoError Unit
  processPayment : Except GoError Unit
  updateOrderStatus : Except GoError Unit
  sendOrderConfirmation : Except GoError Unit
  releaseStock : Except GoError Unit
  refundPayment : Except GoError Unit
  sendCancellationEmail : Except GoError Unit
deriving DecidableEq, Repr

/-- One event delivered to the approval wait loop: whichever of the three
signal channels or the deadline timer the selector fires on in one
`selector.Select` iteration. -/
inductive WaitEvent where
  | approveSignal (p : PaymentApproval)
  | cancelSignal (c : CancelRequest)
  | addItemSignal (item : LineItem)
  | timerFired
deriving DecidableEq, Repr

/-- `workflow.DefaultVersion` of the Go SDK. -/
def defaultVersion : Int := -1

/-- The fixed approval window: 15 minutes, in seconds. -/
def approvalWindow : Int := 15 * 60

/-- The selector callbacks of the wait loop (`lesson_7.md`): approve sets
`PaymentApproved`; cancel sets `Cancelled` and records the reason; add-item
appends to `Items`; the timer sets `Cancelled` with reason
"approval timeout". -/
def handleWaitEvent (s : OrderWorkflowStatus) : WaitEvent → OrderWorkflowStatus
  | .approveSignal _ => { s with paymentApproved := true }
  | .cancelSignal c => { s with cancelled := true, lastError := "cancelled: " ++ c.reason }
  | .addItemSignal item => { s with items := s.items ++ [item] }
  | .timerFired => { s with cancelled := true, lastError := "approval timeout" }

/-- The wait loop `for !status.PaymentApproved && !status.Cancelled`:
each iteration consumes the next ready event.  Returns the state at loop
exit together with the unconsumed events; `none` when the supplied events
run out before a decision (the workflow would still be suspended). -/
def awaitApproval (s : OrderWorkflowStatus) : List WaitEvent → Option (OrderWorkflowStatus × List WaitEvent)
  | [] => if s.paymentApproved || s.cancelled then some (s, []) else none
  | e :: rest =>
    if s.paymentApproved || s.cancelled then some (s, e :: rest)
    else awaitApproval (handleWaitEvent s e) rest

/-- The activity invocations the enrichment stage starts.  On the legacy
branch (`version == workflow.DefaultVersion`) only the inventory snapshot
runs; on the current branch all three lookups are started before any
result is awaited. -/
def enrichmentCalls (orderID : String) (items : List LineItem) (version : Int) : List Invocation :=
  if version = defaultVersion then
    [⟨"FetchInventorySnapshot", [.items items]⟩]
  else
    [⟨"FetchInventorySnapshot", [.items items]⟩,
     ⟨"FetchCustomerProfile", [.str orderID]⟩,
     ⟨"FetchRecommendations", [.str orderID]⟩]

/-- The enrichment data the stage produces, or the first error the
workflow observes when awaiting the joined futures (inventory, then
customer profile, then recommendations). -/
def enrichmentResult (version : Int) (env : ActivityEnv) : Except GoError OrderEnrichment :=
  if version = defaultVersion then
    match env.fetchInventorySnapshot with
    | .error e => .error e
    | .ok invOk => .ok { customerTier := "", inventoryOk := invOk, recommendations := [] }
  else
    match env.fetchInventorySnapshot with
    | .error e => .error e
    | .ok invOk =>
      match env.fetchCustomerProfile with
      | .error e => .error e
      | .ok tier =>
        match env.fetchRecommendations with
        | .error e => .error e
        | .ok recs => .ok { customerTier := tier, inventoryOk := invOk, recommendations := recs }

/-- The observable outcome of one run of `OrderWorkflow`: final status,
the activity invocations in order, the successive `status.Stage`
assignments (including the initial "start"), the wait-loop events left
unconsumed, and the returned (result, error) pair as an `Except`. -/
structure RunResult where
  final : OrderWorkflowStatus
  trace : List Invocation
  stageHistory : List String
  leftoverEvents : List WaitEvent
  ret : Except GoError String
deriving DecidableEq, Repr

/-- Shallow embedding of `OrderWorkflow(ctx, orderID, initialItems)` from
`lesson_7.md`.  `version` is what `workflow.GetVersion` returns for this
instance; `now` is `workflow.Now(ctx)` when the approval deadline is
computed.  Returns `none` only when the wait loop is still suspended after
all supplied events. -/
def runOrderWorkflow (orderID : String) (initialItems : List LineItem)
    (version : Int) (now : Int) (env : ActivityEnv) (events : List WaitEvent) :
    Option RunResult :=
  let s0 : OrderWorkflowStatus :=
    { orderID := orderID, stage := "start", items := initialItems,
      version := "v" ++ toString version }
  -- Step 1: enrichment, parallel or sequential based on version
  let s1 := { s0 with stage := "enrichment" }
  let calls := enrichmentCalls orderID s1.items version
  match enrichmentResult version env with
  | .error e =>
    some { final := s1, trace := calls, stageHistory := ["start", "enrichment"],
           leftoverEvents := events, ret := .error e }
  | .ok enr =>
    if !enr.inventoryOk then
      some { final := { s1 with enrichment := enr, lastError := "insufficient inventory" },
             trace := calls, stageHistory := ["start", "enrichment"],
             leftoverEvents := events,
             ret := .error (.generic ("insufficient inventory for order " ++ orderID)) }
    else
      -- Step 2: reserve stock
      let s3 := { s1 with enrichment := enr, stage := "reserve" }
      let trace3 := calls ++ [⟨"ReserveStock", [.str orderID, .items s3.items]⟩]
      match env.reserveStock with
      | .error e =>
        some { final := { s3 with lastError := "reserve failed: " ++ e.message },
               trace := trace3, stageHistory := ["start", "enrichment", "reserve"],
               leftoverEvents := events, ret := .error e }
      | .ok _ =>
        -- Step 3: await approval with timeout
        let s4 := { s3 with
          reserved := true, stage := "awaiting-approval",
          approvalDeadline := now + approvalWindow }
        match awaitApproval s4 events with
        | none => none
        | some (s5, leftover) =>
          if s5.cancelled then
            -- Compensation: release stock, then cancellation email
            let trace5 := trace3 ++ [⟨"ReleaseStock", [.str orderID]⟩,
                                     ⟨"SendCancellationEmail", [.str orderID, .str s5.lastError]⟩]
            some { final := { s5 with stage := "cancelled" }, trace := trace5,
                   stageHistory := ["start", "enrichment", "reserve", "awaiting-approval", "cancelled"],
                   leftoverEvents := leftover,
                   ret := .ok ("Order " ++ orderID ++ " cancelled (" ++ s5.lastError ++ ")") }
          else
            -- Step 4: process payment
            let s6 := { s5 with stage := "payment" }
            let trace6 := trace3 ++ [⟨"ProcessPayment", [.str orderID]⟩]
            match env.processPayment with
            | .error e =>
              some { final := { s6 with lastError := "payment failed: " ++ e.message },
                     trace := trace6 ++ [⟨"ReleaseStock", [.str orderID]⟩],
                     stageHistory := ["start", "enrichment", "reserve", "awaiting-approval", "payment"],
                     leftoverEvents := leftover, ret := .error e }
            | .ok _ =>
              -- Step 5: update order status
              let s7 := { s6 with charged := true, stage := "status-update" }
              let trace7 := trace6 ++ [⟨"UpdateOrderStatus", [.str orderID, .str "COMPLETED"]⟩]
              match env.updateOrderStatus with
              | .error e =>
                some { final := { s7 with lastError := "status update failed: " ++ e.message },
                       trace := trace7 ++ [⟨"RefundPayment", [.str orderID]⟩,
                                           ⟨"ReleaseStock", [.str orderID]⟩],
                       stageHistory := ["start", "enrichment", "reserve", "awaiting-approval",
                                        "payment", "status-update"],
                       leftoverEvents := leftover, ret := .error e }
              | .ok _ =>
                -- Step 6: send confirmation (non-critical)
                let s8 := { s7 with stage := "notify" }
                let trace8 := trace7 ++ [⟨"SendOrderConfirmation",
                                          [.str orderID, .str "customer@example.com"]⟩]
                let s9 :=
                  match env.sendOrderConfirmation with
                  | .error e => { s8 with lastError := "confirmation failed: " ++ e.message }
                  | .ok _ => s8
                some { final := { s9 with stage := "completed" }, trace := trace8,
                       stageHistory := ["start", "enrichment", "reserve", "awaiting-approval",
                                        "payment", "status-update", "notify", "completed"],
                       leftoverEvents := leftover,
                       ret := .ok ("Order " ++ orderID ++ " completed (version "
                                   ++ ("v" ++ toString version) ++ ")") }

/-- The duration the wait loop hands to `workflow.NewTimer` on each
iteration: the source computes `time.Until(approvalTimeout)`, which Go
defines as `approvalTimeout - time.Now()` — `wallClockNow` is the ambient
wall-clock reading at the moment that loop iteration physically executes,
not the workflow's logical time. -/
def iterationTimerDuration (approvalTimeout wallClockNow : Int) : Int :=
  approvalTimeout - wallClockNow

/-- Number of invocations of the activity `n` in a trace. -/
def countCalls (n : String) (trace : List Invocation) : Nat :=
  (trace.filter (fun inv => inv.name == n)).length

/-- Whether every event in the list is an add-line-item signal. -/
def onlyAddItems : List WaitEvent → Bool
  | [] => true
  | .addItemSignal _ :: rest => onlyAddItems rest
  | _ => false

/-- The line items carried by the add-item signals of an event list, in
order. -/
def addedItems : List WaitEvent → List LineItem
  | [] => []
  | .addItemSignal it :: rest => it :: addedItems rest
  | _ :: rest => addedItems rest

/-- Position of a stage string in the enumerated lifecycle order, the two
terminal branches last. -/
def stageIdx : String → Nat
  | "start" => 0
  | "enrichment" => 1
  | "reserve" => 2
  | "awaiting-approval" => 3
  | "payment" => 4
  | "status-update" => 5
  | "notify" => 6
  | "completed" => 7
  | "cancelled" => 8
  | _ => 100

/-- An environment in which every activity succeeds, used to instantiate
universally quantified results at concrete inputs. -/
def allOkEnv : ActivityEnv :=
  { fetchInventorySnapshot := .ok true, fetchCustomerProfile := .ok "Gold",
    fetchRecommendations := .ok ["Product-A"], reserveStock := .ok (),
    processPayment := .ok (), updateOrderStatus := .ok (),
    sendOrderConfirmation := .ok (), releaseStock := .ok (),
    refundPayment := .ok (), sendCancellationEmail := .ok () }

theorem countCalls_append (n : String) (a b : List Invocation) :
    countCalls n (a ++ b) = countCalls n a + countCalls n b := by
  simp [countCalls, List.filter_append]

theorem awaitApproval_done (s : OrderWorkflowStatus) (evs : List WaitEvent)
    (h : (s.paymentApproved || s.cancelled) = true) :
    awaitApproval s evs = some (s, evs) := by
  cases evs <;> simp [awaitApproval, h]

theorem awaitApproval_cons_undecided (s : OrderWorkflowStatus) (e : WaitEvent)
    (rest : List WaitEvent) (hA : s.paymentApproved = false) (hC : s.cancelled = false) :
    awaitApproval s (e :: rest) = awaitApproval (handleWaitEvent s e) rest := by
  simp [awaitApproval, hA, hC]

theorem awaitApproval_consume_addItems (pre : List WaitEvent) (hpre : onlyAddItems pre = true)
    (tail : List WaitEvent) (s : OrderWorkflowStatus)
    (hA : s.paymentApproved = false) (hC : s.cancelled = false) :
    awaitApproval s (pre ++ tail) =
      awaitApproval { s with items := s.items ++ addedItems pre } tail := by
  induction pre generalizing s with
  | nil => simp [addedItems]
  | cons e pre ih =>
    cases e with
    | addItemSignal it =>
      rw [List.cons_append, awaitApproval_cons_undecided s _ _ hA hC]
      simp only [handleWaitEvent]
      rw [ih (by simpa [onlyAddItems] using hpre) ({ s with items := s.items ++ [it] })
          (by simpa using hA) (by simpa using hC)]
      simp [addedItems]
    | approveSignal p => simp [onlyAddItems] at hpre
    | cancelSignal c => simp [onlyAddItems] at hpre
    | timerFired => simp [onlyAddItems] at hpre

theorem awaitApproval_of_approve (s : OrderWorkflowStatus)
    (hA : s.paymentApproved = false) (hC : s.cancelled = false)
    (pre : List WaitEvent) (hpre : onlyAddItems pre = true)
    (p : PaymentApproval) (rest : List WaitEvent) :
    awaitApproval s (pre ++ .approveSignal p :: rest) =
      some ({ s with items := s.items ++ addedItems pre, paymentApproved := true }, rest) := by
  rw [awaitApproval_consume_addItems pre hpre _ s hA hC]
  rw [awaitApproval_cons_undecided ({ s with items := s.items ++ addedItems pre }) _ _
      (by simpa using hA) (by simpa using hC)]
  exact awaitApproval_done _ _ (by simp [handleWaitEvent])

theorem awaitApproval_of_cancel (s : OrderWorkflowStatus)
    (hA : s.paymentApproved = false) (hC : s.cancelled = false)
    (pre : List WaitEvent) (hpre : onlyAddItems pre = true)
    (c : CancelRequest) (rest : List WaitEvent) :
    awaitApproval s (pre ++ .cancelSignal c :: rest) =
      some ({ s with
        items := s.items ++ addedItems pre, cancelled := true,
        lastError := "cancelled: " ++ c.reason }, rest) := by
  rw [awaitApproval_consume_addItems pre hpre _ s hA hC]
  rw [awaitApproval_cons_undecided ({ s with items := s.items ++ addedItems pre }) _ _
      (by simpa using hA) (by simpa using hC)]
  exact awaitApproval_done _ _ (by simp [handleWaitEvent])

theorem awaitApproval_of_timer (s : OrderWorkflowStatus)
    (hA : s.paymentApproved = false) (hC : s.cancelled = false)
    (pre : List WaitEvent) (hpre : onlyAddItems pre = true) (rest : List WaitEvent) :
    awaitApproval s (pre ++ .timerFired :: rest) =
      some ({ s with
        items := s.items ++ addedItems pre, cancelled := true,
        lastError := "approval timeout" }, rest) := by
  rw [awaitApproval_consume_addItems pre hpre _ s hA hC]
  rw [awaitApproval_cons_undecided ({ s with items := s.items ++ addedItems pre }) _ _
      (by simpa using hA) (by simpa using hC)]
  exact awaitApproval_done _ _ (by simp [handleWaitEvent])

theorem countCalls_enrichmentCalls_eq_zero (n : String) (orderID : String)
    (items : List LineItem) (version : Int)
    (h1 : n ≠ "FetchInventorySnapshot") (h2 : n ≠ "FetchCustomerProfile")
    (h3 : n ≠ "FetchRecommendations") :
    countCalls n (enrichmentCalls orderID items version) = 0 := by
  have e1 : ("FetchInventorySnapshot" == n) = false := by simpa using Ne.symm h1
  have e2 : ("FetchCustomerProfile" == n) = false := by simpa using Ne.symm h2
  have e3 : ("FetchRecommendations" == n) = false := by simpa using Ne.symm h3
  unfold enrichmentCalls countCalls
  split <;> simp [List.filter, e1, e2, e3]

/-- C1: whenever enrichment reports the inventory available, an approval
signal arrives before the deadline (possibly after some add-item signals),
and the reserve, payment and status-update activities succeed, the saga
ends at stage "completed" with `reserved` and `charged` set, `cancelled`
unset, and returns success — whatever the outcome of the confirmation-send
activity, whose failure triggers no compensation and does not fail the
saga. -/
theorem happyPath_completes (orderID : String) (items : List LineItem) (version : Int)
    (now : Int) (env : ActivityEnv) (pre rest : List WaitEvent) (p : PaymentApproval)
    (enr : OrderEnrichment)
    (hEnr : enrichmentResult version env = .ok enr) (hInv : enr.inventoryOk = true)
    (hRes : env.reserveStock = .ok ()) (hPre : onlyAddItems pre = true)
    (hPay : env.processPayment = .ok ()) (hUpd : env.updateOrderStatus = .ok ()) :
    ∃ r, runOrderWorkflow orderID items version now env
        (pre ++ .approveSignal p :: rest) = some r ∧
      r.final.stage = "completed" ∧ r.final.reserved = true ∧ r.final.charged = true ∧
      r.final.cancelled = false ∧
      countCalls "ReleaseStock" r.trace = 0 ∧ countCalls "RefundPayment" r.trace = 0 ∧
      r.ret = .ok ("Order " ++ orderID ++ " completed (version " ++ ("v" ++ toString version) ++ ")") := by
  have z1 : countCalls "ReleaseStock" (enrichmentCalls orderID items version) = 0 :=
    countCalls_enrichmentCalls_eq_zero "ReleaseStock" orderID items version
      (by decide) (by decide) (by decide)
  have z2 : countCalls "RefundPayment" (enrichmentCalls orderID items version) = 0 :=
    countCalls_enrichmentCalls_eq_zero "RefundPayment" orderID items version
      (by decide) (by decide) (by decide)
  unfold runOrderWorkflow
  rw [hEnr, hRes]
  simp only [hInv, Bool.not_true, Bool.false_eq_true, if_false]
  rw [awaitApproval_of_approve _ rfl rfl pre hPre p rest]
  simp only []
  rw [hPay, hUpd]
  cases hS : env.sendOrderConfirmation with
  | error e =>
    refine ⟨_, rfl, rfl, rfl, rfl, rfl, ?_, ?_, rfl⟩ <;>
      simp only [countCalls_append, z1, z2] <;> rfl
  | ok u =>
    refine ⟨_, rfl, rfl, rfl, rfl, rfl, ?_, ?_, rfl⟩ <;>
      simp only [countCalls_append, z1, z2] <;> rfl

/-- Witness for C1 at a concrete order: one line item, current version,
all activities succeed, a single approval signal. -/
theorem happyPath_completes_witness :
    ∃ r, runOrderWorkflow "order-1" [⟨"A", 2⟩] 2 0 allOkEnv
        [.approveSignal ⟨"boss"⟩] = some r ∧
      r.final.stage = "completed" ∧ r.final.reserved = true ∧ r.final.charged = true ∧
      r.final.cancelled = false ∧
      countCalls "ReleaseStock" r.trace = 0 ∧ countCalls "RefundPayment" r.trace = 0 ∧
      r.ret = .ok ("Order " ++ "order-1" ++ " completed (version " ++ ("v" ++ toString (2 : Int)) ++ ")") :=
  happyPath_completes "order-1" [⟨"A", 2⟩] 2 0 allOkEnv [] [] ⟨"boss"⟩
    { customerTier := "Gold", inventoryOk := true, recommendations := ["Product-A"] }
    (by decide) rfl rfl rfl rfl rfl

theorem filter_compensation_enrichmentCalls (orderID : String) (items : List LineItem)
    (version : Int) :
    (enrichmentCalls orderID items version).filter
      (fun i => i.name == "RefundPayment" || i.name == "ReleaseStock") = [] := by
  unfold enrichmentCalls
  split <;> rfl

/-- C2: the compensation run before an error is surfaced is exactly the
reverse of the successful forward steps: a reserve failure triggers no
reversal at all; a payment failure after a successful reservation triggers
exactly one release-stock and no refund; a status-update failure after a
successful charge triggers a refund followed by a release-stock, in that
order.  The reversal activities' own outcomes are unconstrained here: each
listed reversal is invoked no matter how the previous ones fare, because
the workflow discards their results. -/
theorem compensation_matches_forward_progress :
    (∀ (orderID : String) (items : List LineItem) (version now : Int) (env : ActivityEnv)
        (events : List WaitEvent) (enr : OrderEnrichment) (e : GoError),
      enrichmentResult version env = .ok enr → enr.inventoryOk = true →
      env.reserveStock = .error e →
      ∃ r, runOrderWorkflow orderID items version now env events = some r ∧
        r.ret = .error e ∧ countCalls "ReleaseStock" r.trace = 0 ∧
        countCalls "RefundPayment" r.trace = 0) ∧
    (∀ (orderID : String) (items : List LineItem) (version now : Int) (env : ActivityEnv)
        (pre rest : List WaitEvent) (p : PaymentApproval) (enr : OrderEnrichment) (e : GoError),
      enrichmentResult version env = .ok enr → enr.inventoryOk = true →
      env.reserveStock = .ok () → onlyAddItems pre = true →
      env.processPayment = .error e →
      ∃ r, runOrderWorkflow orderID items version now env
          (pre ++ .approveSignal p :: rest) = some r ∧
        r.ret = .error e ∧ countCalls "ReleaseStock" r.trace = 1 ∧
        countCalls "RefundPayment" r.trace = 0) ∧
    (∀ (orderID : String) (items : List LineItem) (version now : Int) (env : ActivityEnv)
        (pre rest : List WaitEvent) (p : PaymentApproval) (enr : OrderEnrichment) (e : GoError),
      enrichmentResult version env = .ok enr → enr.inventoryOk = true →
      env.reserveStock = .ok () → onlyAddItems pre = true →
      env.processPayment = .ok () → env.updateOrderStatus = .error e →
      ∃ r, runOrderWorkflow orderID items version now env
          (pre ++ .approveSignal p :: rest) = some r ∧
        r.ret = .error e ∧
        (r.trace.filter (fun i => i.name == "RefundPayment" || i.name == "ReleaseStock")).map
          Invocation.name = ["RefundPayment", "ReleaseStock"]) := by
  refine ⟨?_, ?_, ?_⟩
  · intro orderID items version now env events enr e hEnr hInv hRes
    have z1 : countCalls "ReleaseStock" (enrichmentCalls orderID items version) = 0 :=
      countCalls_enrichmentCalls_eq_zero "ReleaseStock" orderID items version
        (by decide) (by decide) (by decide)
    have z2 : countCalls "RefundPayment" (enrichmentCalls orderID items version) = 0 :=
      countCalls_enrichmentCalls_eq_zero "RefundPayment" orderID items version
        (by decide) (by decide) (by decide)
    unfold runOrderWorkflow
    rw [hEnr, hRes]
    simp only [hInv, Bool.not_true, Bool.false_eq_true, if_false]
    refine ⟨_, rfl, rfl, ?_, ?_⟩ <;> simp only [countCalls_append, z1, z2] <;> rfl
  · intro orderID items version now env pre rest p enr e hEnr hInv hRes hPre hPay
    have z1 : countCalls "ReleaseStock" (enrichmentCalls orderID items version) = 0 :=
      countCalls_enrichmentCalls_eq_zero "ReleaseStock" orderID items version
        (by decide) (by decide) (by decide)
    have z2 : countCalls "RefundPayment" (enrichmentCalls orderID items version) = 0 :=
      countCalls_enrichmentCalls_eq_zero "RefundPayment" orderID items version
        (by decide) (by decide) (by decide)
    unfold runOrderWorkflow
    rw [hEnr, hRes]
    simp only [hInv, Bool.not_true, Bool.false_eq_true, if_false]
    rw [awaitApproval_of_approve _ rfl rfl pre hPre p rest]
    simp only []
    rw [hPay]
    refine ⟨_, rfl, rfl, ?_, ?_⟩ <;> simp only [countCalls_append, z1, z2] <;> rfl
  · intro orderID items version now env pre rest p enr e hEnr hInv hRes hPre hPay hUpd
    unfold runOrderWorkflow
    rw [hEnr, hRes]
    simp only [hInv, Bool.not_true, Bool.false_eq_true, if_false]
    rw [awaitApproval_of_approve _ rfl rfl pre hPre p rest]
    simp only []
    rw [hPay, hUpd]
    refine ⟨_, rfl, rfl, ?_⟩
    simp only [List.filter_append, filter_compensation_enrichmentCalls]
    rfl

/-- Witness for C2: the three failure scenarios at concrete inputs. -/
theorem compensation_matches_forward_progress_witness :
    (∃ r, runOrderWorkflow "o1" [⟨"A", 1⟩] 2 0
        { allOkEnv with reserveStock := .error (.transient "inv down") } [] = some r ∧
      r.ret = .error (.transient "inv down") ∧ countCalls "ReleaseStock" r.trace = 0 ∧
      countCalls "RefundPayment" r.trace = 0) ∧
    (∃ r, runOrderWorkflow "o2" [⟨"A", 1⟩] 2 0
        { allOkEnv with processPayment := .error (.permanent "card declined") }
        [.approveSignal ⟨"boss"⟩] = some r ∧
      r.ret = .error (.permanent "card declined") ∧ countCalls "ReleaseStock" r.trace = 1 ∧
      countCalls "RefundPayment" r.trace = 0) ∧
    (∃ r, runOrderWorkflow "o3" [⟨"A", 1⟩] 2 0
        { allOkEnv with updateOrderStatus := .error (.transient "db timeout"),
                        refundPayment := .error (.transient "refund down") }
        [.approveSignal ⟨"boss"⟩] = some r ∧
      r.ret = .error (.transient "db timeout") ∧
      (r.trace.filter (fun i => i.name == "RefundPayment" || i.name == "ReleaseStock")).map
        Invocation.name = ["RefundPayment", "ReleaseStock"]) :=
  ⟨compensation_matches_forward_progress.1 "o1" [⟨"A", 1⟩] 2 0 _ []
      { customerTier := "Gold", inventoryOk := true, recommendations := ["Product-A"] }
      (.transient "inv down") (by decide) rfl rfl,
   compensation_matches_forward_progress.2.1 "o2" [⟨"A", 1⟩] 2 0 _ [] [] ⟨"boss"⟩
      { customerTier := "Gold", inventoryOk := true, recommendations := ["Product-A"] }
      (.permanent "card declined") (by decide) rfl rfl rfl rfl,
   compensation_matches_forward_progress.2.2 "o3" [⟨"A", 1⟩] 2 0 _ [] [] ⟨"boss"⟩
      { customerTier := "Gold", inventoryOk := true, recommendations := ["Product-A"] }
      (.transient "db timeout") (by decide) rfl rfl rfl rfl rfl⟩

/-- C3: an order cancelled before approval — by explicit cancel signal or
by the deadline timer — gets exactly one release-stock reversal, no
payment-related reversal, reaches stage "cancelled", and the saga returns
success (nil error) with `lastError` carrying the reason ("approval
timeout" when the deadline fired). -/
theorem cancellation_releases_and_returns_success :
    (∀ (orderID : String) (items : List LineItem) (version now : Int) (env : ActivityEnv)
        (pre rest : List WaitEvent) (c : CancelRequest) (enr : OrderEnrichment),
      enrichmentResult version env = .ok enr → enr.inventoryOk = true →
      env.reserveStock = .ok () → onlyAddItems pre = true →
      ∃ r, runOrderWorkflow orderID items version now env
          (pre ++ .cancelSignal c :: rest) = some r ∧
        r.final.stage = "cancelled" ∧
        countCalls "ReleaseStock" r.trace = 1 ∧ countCalls "RefundPayment" r.trace = 0 ∧
        r.final.lastError = "cancelled: " ++ c.reason ∧
        r.ret = .ok ("Order " ++ orderID ++ " cancelled (" ++ ("cancelled: " ++ c.reason) ++ ")")) ∧
    (∀ (orderID : String) (items : List LineItem) (version now : Int) (env : ActivityEnv)
        (pre rest : List WaitEvent) (enr : OrderEnrichment),
      enrichmentResult version env = .ok enr → enr.inventoryOk = true →
      env.reserveStock = .ok () → onlyAddItems pre = true →
      ∃ r, runOrderWorkflow orderID items version now env
          (pre ++ .timerFired :: rest) = some r ∧
        r.final.stage = "cancelled" ∧
        countCalls "ReleaseStock" r.trace = 1 ∧ countCalls "RefundPayment" r.trace = 0 ∧
        r.final.lastError = "approval timeout" ∧
        r.ret = .ok ("Order " ++ orderID ++ " cancelled (" ++ "approval timeout" ++ ")")) := by
  constructor
  · intro orderID items version now env pre rest c enr hEnr hInv hRes hPre
    have z1 : countCalls "ReleaseStock" (enrichmentCalls orderID items version) = 0 :=
      countCalls_enrichmentCalls_eq_zero "ReleaseStock" orderID items version
        (by decide) (by decide) (by decide)
    have z2 : countCalls "RefundPayment" (enrichmentCalls orderID items version) = 0 :=
      countCalls_enrichmentCalls_eq_zero "RefundPayment" orderID items version
        (by decide) (by decide) (by decide)
    unfold runOrderWorkflow
    rw [hEnr, hRes]
    simp only [hInv, Bool.not_true, Bool.false_eq_true, if_false]
    rw [awaitApproval_of_cancel _ rfl rfl pre hPre c rest]
    simp only []
    refine ⟨_, rfl, rfl, ?_, ?_, rfl, rfl⟩ <;> simp only [countCalls_append, z1, z2] <;> rfl
  · intro orderID items version now env pre rest enr hEnr hInv hRes hPre
    have z1 : countCalls "ReleaseStock" (enrichmentCalls orderID items version) = 0 :=
      countCalls_enrichmentCalls_eq_zero "ReleaseStock" orderID items version
        (by decide) (by decide) (by decide)
    have z2 : countCalls "RefundPayment" (enrichmentCalls orderID items version) = 0 :=
      countCalls_enrichmentCalls_eq_zero "RefundPayment" orderID items version
        (by decide) (by decide) (by decide)
    unfold runOrderWorkflow
    rw [hEnr, hRes]
    simp only [hInv, Bool.not_true, Bool.false_eq_true, if_false]
    rw [awaitApproval_of_timer _ rfl rfl pre hPre rest]
    simp only []
    refine ⟨_, rfl, rfl, ?_, ?_, rfl, rfl⟩ <;> simp only [countCalls_append, z1, z2] <;> rfl

/-- Witness for C3: an explicit cancel on one order, a deadline expiry on
another. -/
theorem cancellation_releases_and_returns_success_witness :
    (∃ r, runOrderWorkflow "o4" [⟨"A", 1⟩] 2 0 allOkEnv
        [.cancelSignal ⟨"changed my mind"⟩] = some r ∧
      r.final.stage = "cancelled" ∧
      countCalls "ReleaseStock" r.trace = 1 ∧ countCalls "RefundPayment" r.trace = 0 ∧
      r.final.lastError = "cancelled: " ++ "changed my mind" ∧
      r.ret = .ok ("Order " ++ "o4" ++ " cancelled (" ++ ("cancelled: " ++ "changed my mind") ++ ")")) ∧
    (∃ r, runOrderWorkflow "o5" [⟨"A", 1⟩] 2 0 allOkEnv [.timerFired] = some r ∧
      r.final.stage = "cancelled" ∧
      countCalls "ReleaseStock" r.trace = 1 ∧ countCalls "RefundPayment" r.trace = 0 ∧
      r.final.lastError = "approval timeout" ∧
      r.ret = .ok ("Order " ++ "o5" ++ " cancelled (" ++ "approval timeout" ++ ")")) :=
  ⟨cancellation_releases_and_returns_success.1 "o4" [⟨"A", 1⟩] 2 0 allOkEnv [] []
      ⟨"changed my mind"⟩
      { customerTier := "Gold", inventoryOk := true, recommendations := ["Product-A"] }
      (by decide) rfl rfl rfl,
   cancellation_releases_and_returns_success.2 "o5" [⟨"A", 1⟩] 2 0 allOkEnv [] []
      { customerTier := "Gold", inventoryOk := true, recommendations := ["Product-A"] }
      (by decide) rfl rfl rfl⟩

/-- C10: on every cancellation exit — explicit cancel signal or deadline
expiry — after the release-stock reversal the workflow invokes
`SendCancellationEmail` with the order ID and the recorded cancellation
reason (the `lastError` text), and still returns success whatever that
activity's outcome (its result is discarded). -/
theorem cancellation_sends_cancellation_email :
    (∀ (orderID : String) (items : List LineItem) (version now : Int) (env : ActivityEnv)
        (pre rest : List WaitEvent) (c : CancelRequest) (enr : OrderEnrichment),
      enrichmentResult version env = .ok enr → enr.inventoryOk = true →
      env.reserveStock = .ok () → onlyAddItems pre = true →
      ∃ r, runOrderWorkflow orderID items version now env
          (pre ++ .cancelSignal c :: rest) = some r ∧
        r.final.lastError = "cancelled: " ++ c.reason ∧
        r.trace = enrichmentCalls orderID items version ++
          [⟨"ReserveStock", [.str orderID, .items items]⟩,
           ⟨"ReleaseStock", [.str orderID]⟩,
           ⟨"SendCancellationEmail", [.str orderID, .str ("cancelled: " ++ c.reason)]⟩] ∧
        (∃ msg, r.ret = .ok msg)) ∧
    (∀ (orderID : String) (items : List LineItem) (version now : Int) (env : ActivityEnv)
        (pre rest : List WaitEvent) (enr : OrderEnrichment),
      enrichmentResult version env = .ok enr → enr.inventoryOk = true →
      env.reserveStock = .ok () → onlyAddItems pre = true →
      ∃ r, runOrderWorkflow orderID items version now env
          (pre ++ .timerFired :: rest) = some r ∧
        r.final.lastError = "approval timeout" ∧
        r.trace = enrichmentCalls orderID items version ++
          [⟨"ReserveStock", [.str orderID, .items items]⟩,
           ⟨"ReleaseStock", [.str orderID]⟩,
           ⟨"SendCancellationEmail", [.str orderID, .str "approval timeout"]⟩] ∧
        (∃ msg, r.ret = .ok msg)) := by
  constructor
  · intro orderID items version now env pre rest c enr hEnr hInv hRes hPre
    unfold runOrderWorkflow
    rw [hEnr, hRes]
    simp only [hInv, Bool.not_true, Bool.false_eq_true, if_false]
    rw [awaitApproval_of_cancel _ rfl rfl pre hPre c rest]
    simp only []
    refine ⟨_, rfl, rfl, ?_, ⟨_, rfl⟩⟩
    simp [List.append_assoc]
  · intro orderID items version now env pre rest enr hEnr hInv hRes hPre
    unfold runOrderWorkflow
    rw [hEnr, hRes]
    simp only [hInv, Bool.not_true, Bool.false_eq_true, if_false]
    rw [awaitApproval_of_timer _ rfl rfl pre hPre rest]
    simp only []
    refine ⟨_, rfl, rfl, ?_, ⟨_, rfl⟩⟩
    simp [List.append_assoc]

/-- Witness for C10: a cancel-signal run and a timeout run at concrete
inputs, the email activity itself failing in the first one. -/
theorem cancellation_sends_cancellation_email_witness :
    (∃ r, runOrderWorkflow "o7" [⟨"A", 1⟩] 2 0
        { allOkEnv with sendCancellationEmail := .error (.transient "smtp down") }
        [.cancelSignal ⟨"no longer needed"⟩] = some r ∧
      r.final.lastError = "cancelled: " ++ "no longer needed" ∧
      r.trace = enrichmentCalls "o7" [⟨"A", 1⟩] 2 ++
        [⟨"ReserveStock", [.str "o7", .items [⟨"A", 1⟩]]⟩,
         ⟨"ReleaseStock", [.str "o7"]⟩,
         ⟨"SendCancellationEmail", [.str "o7", .str ("cancelled: " ++ "no longer needed")]⟩] ∧
      (∃ msg, r.ret = .ok msg)) ∧
    (∃ r, runOrderWorkflow "o8" [⟨"A", 1⟩] 2 0 allOkEnv [.timerFired] = some r ∧
      r.final.lastError = "approval timeout" ∧
      r.trace = enrichmentCalls "o8" [⟨"A", 1⟩] 2 ++
        [⟨"ReserveStock", [.str "o8", .items [⟨"A", 1⟩]]⟩,
         ⟨"ReleaseStock", [.str "o8"]⟩,
         ⟨"SendCancellationEmail", [.str "o8", .str "approval timeout"]⟩] ∧
      (∃ msg, r.ret = .ok msg)) :=
  ⟨cancellation_sends_cancellation_email.1 "o7" [⟨"A", 1⟩] 2 0 _ [] [] ⟨"no longer needed"⟩
      { customerTier := "Gold", inventoryOk := true, recommendations := ["Product-A"] }
      (by decide) rfl rfl rfl,
   cancellation_sends_cancellation_email.2 "o8" [⟨"A", 1⟩] 2 0 allOkEnv [] []
      { customerTier := "Gold", inventoryOk := true, recommendations := ["Product-A"] }
      (by decide) rfl rfl rfl⟩

/-- C5: at the enrichment stage, the legacy version-gate branch starts
only the inventory check, while the current branch starts all three
lookups before awaiting any of them and joins them; the first error the
workflow observes among the joined members (in the deterministic join
order inventory, customer profile, recommendations) aborts enrichment
with exactly that error, and an enrichment failure aborts the saga with
no compensation activity executed. -/
theorem enrichment_branching_and_fail_fast :
    (∀ (orderID : String) (items : List LineItem),
      enrichmentCalls orderID items defaultVersion =
        [⟨"FetchInventorySnapshot", [.items items]⟩]) ∧
    (∀ (orderID : String) (items : List LineItem) (version : Int), version ≠ defaultVersion →
      enrichmentCalls orderID items version =
        [⟨"FetchInventorySnapshot", [.items items]⟩,
         ⟨"FetchCustomerProfile", [.str orderID]⟩,
         ⟨"FetchRecommendations", [.str orderID]⟩]) ∧
    (∀ (version : Int) (env : ActivityEnv) (e : GoError), version ≠ defaultVersion →
      env.fetchInventorySnapshot = .error e → enrichmentResult version env = .error e) ∧
    (∀ (version : Int) (env : ActivityEnv) (b : Bool) (e : GoError), version ≠ defaultVersion →
      env.fetchInventorySnapshot = .ok b → env.fetchCustomerProfile = .error e →
      enrichmentResult version env = .error e) ∧
    (∀ (version : Int) (env : ActivityEnv) (b : Bool) (tier : String) (e : GoError),
      version ≠ defaultVersion →
      env.fetchInventorySnapshot = .ok b → env.fetchCustomerProfile = .ok tier →
      env.fetchRecommendations = .error e → enrichmentResult version env = .error e) ∧
    (∀ (version : Int) (env : ActivityEnv) (b : Bool) (tier : String) (recs : List String),
      version ≠ defaultVersion →
      env.fetchInventorySnapshot = .ok b → env.fetchCustomerProfile = .ok tier →
      env.fetchRecommendations = .ok recs →
      enrichmentResult version env =
        .ok { customerTier := tier, inventoryOk := b, recommendations := recs }) ∧
    (∀ (orderID : String) (items : List LineItem) (version now : Int) (env : ActivityEnv)
        (events : List WaitEvent) (e : GoError),
      enrichmentResult version env = .error e →
      ∃ r, runOrderWorkflow orderID items version now env events = some r ∧
        r.ret = .error e ∧ r.final.reserved = false ∧
        countCalls "ReleaseStock" r.trace = 0 ∧ countCalls "RefundPayment" r.trace = 0) := by
  refine ⟨?_, ?_, ?_, ?_, ?_, ?_, ?_⟩
  · intro orderID items
    simp [enrichmentCalls]
  · intro orderID items version hv
    simp [enrichmentCalls, hv]
  · intro version env e hv hI
    simp [enrichmentResult, hv, hI]
  · intro version env b e hv hI hC
    simp [enrichmentResult, hv, hI, hC]
  · intro version env b tier e hv hI hC hR
    simp [enrichmentResult, hv, hI, hC, hR]
  · intro version env b tier recs hv hI hC hR
    simp [enrichmentResult, hv, hI, hC, hR]
  · intro orderID items version now env events e hEnr
    have z1 : countCalls "ReleaseStock" (enrichmentCalls orderID items version) = 0 :=
      countCalls_enrichmentCalls_eq_zero "ReleaseStock" orderID items version
        (by decide) (by decide) (by decide)
    have z2 : countCalls "RefundPayment" (enrichmentCalls orderID items version) = 0 :=
      countCalls_enrichmentCalls_eq_zero "RefundPayment" orderID items version
        (by decide) (by decide) (by decide)
    unfold runOrderWorkflow
    rw [hEnr]
    exact ⟨_, rfl, rfl, rfl, z1, z2⟩

/-- Witness for C5: concrete version gates and failure injections. -/
theorem enrichment_branching_and_fail_fast_witness :
    enrichmentCalls "w1" [⟨"A", 1⟩] defaultVersion =
      [⟨"FetchInventorySnapshot", [.items [⟨"A", 1⟩]]⟩] ∧
    enrichmentCalls "w1" [⟨"A", 1⟩] 2 =
      [⟨"FetchInventorySnapshot", [.items [⟨"A", 1⟩]]⟩,
       ⟨"FetchCustomerProfile", [.str "w1"]⟩,
       ⟨"FetchRecommendations", [.str "w1"]⟩] ∧
    enrichmentResult 2 { allOkEnv with fetchCustomerProfile := .error (.transient "crm down") } =
      .error (.transient "crm down") ∧
    (∃ r, runOrderWorkflow "w1" [⟨"A", 1⟩] 2 0
        { allOkEnv with fetchCustomerProfile := .error (.transient "crm down") } [] = some r ∧
      r.ret = .error (.transient "crm down") ∧ r.final.reserved = false ∧
      countCalls "ReleaseStock" r.trace = 0 ∧ countCalls "RefundPayment" r.trace = 0) :=
  ⟨enrichment_branching_and_fail_fast.1 "w1" [⟨"A", 1⟩],
   enrichment_branching_and_fail_fast.2.1 "w1" [⟨"A", 1⟩] 2 (by decide),
   enrichment_branching_and_fail_fast.2.2.2.1 2 _ true (.transient "crm down") (by decide) rfl rfl,
   enrichment_branching_and_fail_fast.2.2.2.2.2.2 "w1" [⟨"A", 1⟩] 2 0 _ []
     (.transient "crm down") (by decide)⟩

/-- An environment whose inventory snapshot reports the items unavailable. -/
def invFalseEnv : ActivityEnv :=
  { allOkEnv with fetchInventorySnapshot := .ok false }

/-- C6 counterexample: when enrichment reports `inventoryOk == false`, the
error the saga returns is built by `fmt.Errorf` — a plain untyped error,
not a `types.ValidationError` — so the claim that the saga fails with a
validation-class error is false on the code. -/
theorem insufficient_inventory_error_untyped :
    (runOrderWorkflow "ORD-77" [⟨"A", 1⟩] 2 0 invFalseEnv []).map (fun r => r.ret) =
      some (.error (.generic "insufficient inventory for order ORD-77")) ∧
    (GoError.generic "insufficient inventory for order ORD-77").isValidationClass = false ∧
    ((GoError.validationErr "insufficient inventory for order ORD-77").isValidationClass = true) :=
  ⟨rfl, rfl, rfl⟩

/-- C6 (amended): if the enrichment result has `inventoryOk == false`, the
saga fails with the plain formatted error "insufficient inventory for
order <id>" (not a typed `ValidationError`), records `lastError`
"insufficient inventory", executes no compensation activity, and
`reserved` stays false. -/
theorem insufficient_inventory_fails_without_compensation
    (orderID : String) (items : List LineItem) (version now : Int) (env : ActivityEnv)
    (events : List WaitEvent) (enr : OrderEnrichment)
    (hEnr : enrichmentResult version env = .ok enr) (hInv : enr.inventoryOk = false) :
    ∃ r, runOrderWorkflow orderID items version now env events = some r ∧
      r.ret = .error (.generic ("insufficient inventory for order " ++ orderID)) ∧
      (∀ e, r.ret = .error e → e.isValidationClass = false) ∧
      r.final.lastError = "insufficient inventory" ∧ r.final.reserved = false ∧
      countCalls "ReleaseStock" r.trace = 0 ∧ countCalls "RefundPayment" r.trace = 0 := by
  have z1 : countCalls "ReleaseStock" (enrichmentCalls orderID items version) = 0 :=
    countCalls_enrichmentCalls_eq_zero "ReleaseStock" orderID items version
      (by decide) (by decide) (by decide)
  have z2 : countCalls "RefundPayment" (enrichmentCalls orderID items version) = 0 :=
    countCalls_enrichmentCalls_eq_zero "RefundPayment" orderID items version
      (by decide) (by decide) (by decide)
  unfold runOrderWorkflow
  rw [hEnr]
  simp only [hInv, Bool.not_false, if_true]
  refine ⟨_, rfl, rfl, ?_, rfl, rfl, z1, z2⟩
  intro e he
  injection he with he
  rw [← he]
  rfl

/-- Witness for the amended C6 at a concrete order. -/
theorem insufficient_inventory_fails_without_compensation_witness :
    ∃ r, runOrderWorkflow "ORD-78" [⟨"A", 1⟩] 2 0 invFalseEnv [] = some r ∧
      r.ret = .error (.generic ("insufficient inventory for order " ++ "ORD-78")) ∧
      (∀ e, r.ret = .error e → e.isValidationClass = false) ∧
      r.final.lastError = "insufficient inventory" ∧ r.final.reserved = false ∧
      countCalls "ReleaseStock" r.trace = 0 ∧ countCalls "RefundPayment" r.trace = 0 :=
  insufficient_inventory_fails_without_compensation "ORD-78" [⟨"A", 1⟩] 2 0 invFalseEnv []
    { customerTier := "Gold", inventoryOk := false, recommendations := ["Product-A"] }
    (by decide) rfl

theorem awaitApproval_not_both (evs : List WaitEvent) :
    ∀ (s s' : OrderWorkflowStatus) (left : List WaitEvent),
      ¬(s.paymentApproved = true ∧ s.cancelled = true) →
      awaitApproval s evs = some (s', left) →
      ¬(s'.paymentApproved = true ∧ s'.cancelled = true) := by
  induction evs with
  | nil =>
    intro s s' left h0 h
    simp only [awaitApproval] at h
    split at h
    · injection h with h
      injection h with h1 h2
      subst h1
      exact h0
    · exact Option.noConfusion h
  | cons e rest ih =>
    intro s s' left h0 h
    simp only [awaitApproval] at h
    split at h
    · injection h with h
      injection h with h1 h2
      subst h1
      exact h0
    · rename_i hg
      simp only [Bool.or_eq_true, not_or, Bool.not_eq_true] at hg
      refine ih (handleWaitEvent s e) s' left ?_ h
      cases e <;> simp [handleWaitEvent, hg.1, hg.2]

/-- Exhaustive characterization of a finished run: the possible stage
histories, that the last recorded stage is the final one, that the payment
activity is invoked at most once, that the approval and cancellation flags
are never both set, and how the returned error correlates with the final
stage. -/
theorem runOrderWorkflow_outcomes (orderID : String) (items : List LineItem)
    (version now : Int) (env : ActivityEnv) (events : List WaitEvent) (r : RunResult)
    (h : runOrderWorkflow orderID items version now env events = some r) :
    (r.stageHistory = ["start", "enrichment"] ∨
     r.stageHistory = ["start", "enrichment", "reserve"] ∨
     r.stageHistory = ["start", "enrichment", "reserve", "awaiting-approval", "cancelled"] ∨
     r.stageHistory = ["start", "enrichment", "reserve", "awaiting-approval", "payment"] ∨
     r.stageHistory = ["start", "enrichment", "reserve", "awaiting-approval", "payment",
       "status-update"] ∨
     r.stageHistory = ["start", "enrichment", "reserve", "awaiting-approval", "payment",
       "status-update", "notify", "completed"]) ∧
    r.stageHistory.getLast? = some r.final.stage ∧
    countCalls "ProcessPayment" r.trace ≤ 1 ∧
    ¬(r.final.paymentApproved = true ∧ r.final.cancelled = true) ∧
    (∀ msg, r.ret = .ok msg → r.final.stage = "completed" ∨ r.final.stage = "cancelled") ∧
    (∀ e, r.ret = .error e → r.final.stage = "enrichment" ∨ r.final.stage = "reserve" ∨
      r.final.stage = "payment" ∨ r.final.stage = "status-update") := by
  have zP : countCalls "ProcessPayment" (enrichmentCalls orderID items version) = 0 :=
    countCalls_enrichmentCalls_eq_zero "ProcessPayment" orderID items version
      (by decide) (by decide) (by decide)
  simp only [runOrderWorkflow] at h
  split at h
  · -- enrichment failed
    injection h with h
    subst h
    refine ⟨Or.inl rfl, rfl, ?_, by simp, ?_, ?_⟩
    · simp only [zP]
      exact Nat.zero_le 1
    · intro msg hm
      exact Except.noConfusion hm
    · intro e he
      exact Or.inl rfl
  · -- enrichment succeeded
    rename_i enr _
    split at h
    · -- inventory not ok
      injection h with h
      subst h
      refine ⟨Or.inl rfl, rfl, ?_, by simp, ?_, ?_⟩
      · simp only [zP]
        exact Nat.zero_le 1
      · intro msg hm
        exact Except.noConfusion hm
      · intro e he
        exact Or.inl rfl
    · -- inventory ok; reserve
      split at h
      · -- reserve failed
        injection h with h
        subst h
        refine ⟨Or.inr (Or.inl rfl), rfl, ?_, by simp, ?_, ?_⟩
        · simp only [countCalls_append, zP]
          exact Nat.zero_le 1
        · intro msg hm
          exact Except.noConfusion hm
        · intro e he
          exact Or.inr (Or.inl rfl)
      · -- reserve ok; wait loop
        split at h
        · -- loop still suspended
          exact Option.noConfusion h
        · rename_i s5 leftover heq
          have hNB : ¬(s5.paymentApproved = true ∧ s5.cancelled = true) :=
            awaitApproval_not_both events _ s5 leftover (by simp) heq
          split at h
          · -- cancelled
            rename_i hc
            injection h with h
            subst h
            refine ⟨Or.inr (Or.inr (Or.inl rfl)), rfl, ?_, ?_, ?_, ?_⟩
            · simp only [countCalls_append, zP]
              exact Nat.zero_le 1
            · intro hb
              exact hNB ⟨hb.1, hc⟩
            · intro msg hm
              exact Or.inr rfl
            · intro e he
              exact Except.noConfusion he
          · -- approved; payment
            rename_i hc
            rw [Bool.not_eq_true] at hc
            split at h
            · -- payment failed
              injection h with h
              subst h
              refine ⟨Or.inr (Or.inr (Or.inr (Or.inl rfl))), rfl, ?_, ?_, ?_, ?_⟩
              · simp only [countCalls_append, zP]
                exact Nat.le_refl 1
              · intro hb
                rw [show ((({ s5 with stage := "payment" } : OrderWorkflowStatus)).cancelled)
                    = s5.cancelled from rfl, hc] at hb
                exact Bool.noConfusion hb.2
              · intro msg hm
                exact Except.noConfusion hm
              · intro e he
                exact Or.inr (Or.inr (Or.inl rfl))
            · -- payment ok; status update
              split at h
              · -- status update failed
                injection h with h
                subst h
                refine ⟨Or.inr (Or.inr (Or.inr (Or.inr (Or.inl rfl)))), rfl, ?_, ?_, ?_, ?_⟩
                · simp only [countCalls_append, zP]
                  exact Nat.le_refl 1
                · intro hb
                  rw [show ((({ s5 with charged := true, stage := "status-update" } :
                      OrderWorkflowStatus)).cancelled) = s5.cancelled from rfl, hc] at hb
                  exact Bool.noConfusion hb.2
                · intro msg hm
                  exact Except.noConfusion hm
                · intro e he
                  exact Or.inr (Or.inr (Or.inr rfl))
              · -- status update ok; notify and complete
                cases hS : env.sendOrderConfirmation with
                | error e =>
                  rw [hS] at h
                  injection h with h
                  subst h
                  refine ⟨Or.inr (Or.inr (Or.inr (Or.inr (Or.inr rfl)))), rfl, ?_, ?_, ?_, ?_⟩
                  · simp only [countCalls_append, zP]
                    exact Nat.le_refl 1
                  · intro hb
                    exact Bool.noConfusion (hc ▸ hb.2)
                  · intro msg hm
                    exact Or.inl rfl
                  · intro e' he'
                    exact Except.noConfusion he'
                | ok u =>
                  rw [hS] at h
                  injection h with h
                  subst h
                  refine ⟨Or.inr (Or.inr (Or.inr (Or.inr (Or.inr rfl)))), rfl, ?_, ?_, ?_, ?_⟩
                  · simp only [countCalls_append, zP]
                    exact Nat.le_refl 1
                  · intro hb
                    exact Bool.noConfusion (hc ▸ hb.2)
                  · intro msg hm
                    exact Or.inl rfl
                  · intro e' he'
                    exact Except.noConfusion he'

/-- A placeholder run used only to extract the value of a concrete
successful `runOrderWorkflow` application. -/
def emptyRun : RunResult :=
  { final := {}, trace := [], stageHistory := [], leftoverEvents := [], ret := .ok "" }

/-- C4 counterexample: when the reserve activity fails, the run ends with
the recorded stage still "reserve" — not one of the terminal stages
{completed, cancelled, failed} the claim allows; the workflow never
records a "failed" stage. -/
theorem reserve_failure_leaves_nonterminal_stage :
    (runOrderWorkflow "ORD-9" [⟨"A", 1⟩] 2 0
        { allOkEnv with reserveStock := .error (.transient "inventory svc down") } []).map
      (fun r => r.final.stage) = some "reserve" ∧
    "reserve" ∉ (["completed", "cancelled", "failed"] : List String) :=
  ⟨rfl, by decide⟩

/-- C4 (amended): the recorded stage advances strictly monotonically in
the enumerated order, with cancellation branching off the approval wait;
terminal stages appear only as the last recorded stage and "failed" is
never recorded; on success the final stage is "completed" or "cancelled",
while on failure the final stage remains the stage of the failing step
(enrichment, reserve, payment, or status-update) — there is no FAILED
terminal stage. -/
theorem stage_lifecycle_monotone (orderID : String) (items : List LineItem)
    (version now : Int) (env : ActivityEnv) (events : List WaitEvent) (r : RunResult)
    (h : runOrderWorkflow orderID items version now env events = some r) :
    List.Chain' (fun a b => stageIdx a < stageIdx b) r.stageHistory ∧
    "failed" ∉ r.stageHistory ∧
    (∀ s_ ∈ r.stageHistory.dropLast, s_ ≠ "completed" ∧ s_ ≠ "cancelled") ∧
    r.stageHistory.getLast? = some r.final.stage ∧
    (∀ msg, r.ret = .ok msg → r.final.stage = "completed" ∨ r.final.stage = "cancelled") ∧
    (∀ e, r.ret = .error e → r.final.stage = "enrichment" ∨ r.final.stage = "reserve" ∨
      r.final.stage = "payment" ∨ r.final.stage = "status-update") := by
  obtain ⟨hH, hLast, -, -, hOk, hErr⟩ :=
    runOrderWorkflow_outcomes orderID items version now env events r h
  refine ⟨?_, ?_, ?_, hLast, hOk, hErr⟩
  · rcases hH with h' | h' | h' | h' | h' | h' <;> rw [h'] <;>
      simp only [List.chain'_cons, List.chain'_singleton, and_true] <;> decide
  · rcases hH with h' | h' | h' | h' | h' | h' <;> rw [h'] <;> decide
  · rcases hH with h' | h' | h' | h' | h' | h' <;> rw [h'] <;> decide

/-- Witness for the amended C4 at a concrete completed run. -/
theorem stage_lifecycle_monotone_witness :
    List.Chain' (fun a b => stageIdx a < stageIdx b)
      ((runOrderWorkflow "ORD-10" [⟨"A", 1⟩] 2 0 allOkEnv
        [.approveSignal ⟨"boss"⟩]).getD emptyRun).stageHistory ∧
    "failed" ∉ ((runOrderWorkflow "ORD-10" [⟨"A", 1⟩] 2 0 allOkEnv
        [.approveSignal ⟨"boss"⟩]).getD emptyRun).stageHistory ∧
    (∀ s_ ∈ ((runOrderWorkflow "ORD-10" [⟨"A", 1⟩] 2 0 allOkEnv
        [.approveSignal ⟨"boss"⟩]).getD emptyRun).stageHistory.dropLast,
      s_ ≠ "completed" ∧ s_ ≠ "cancelled") ∧
    ((runOrderWorkflow "ORD-10" [⟨"A", 1⟩] 2 0 allOkEnv
        [.approveSignal ⟨"boss"⟩]).getD emptyRun).stageHistory.getLast? =
      some ((runOrderWorkflow "ORD-10" [⟨"A", 1⟩] 2 0 allOkEnv
        [.approveSignal ⟨"boss"⟩]).getD emptyRun).final.stage ∧
    (∀ msg, ((runOrderWorkflow "ORD-10" [⟨"A", 1⟩] 2 0 allOkEnv
        [.approveSignal ⟨"boss"⟩]).getD emptyRun).ret = .ok msg →
      ((runOrderWorkflow "ORD-10" [⟨"A", 1⟩] 2 0 allOkEnv
        [.approveSignal ⟨"boss"⟩]).getD emptyRun).final.stage = "completed" ∨
      ((runOrderWorkflow "ORD-10" [⟨"A", 1⟩] 2 0 allOkEnv
        [.approveSignal ⟨"boss"⟩]).getD emptyRun).final.stage = "cancelled") ∧
    (∀ e, ((runOrderWorkflow "ORD-10" [⟨"A", 1⟩] 2 0 allOkEnv
        [.approveSignal ⟨"boss"⟩]).getD emptyRun).ret = .error e →
      ((runOrderWorkflow "ORD-10" [⟨"A", 1⟩] 2 0 allOkEnv
        [.approveSignal ⟨"boss"⟩]).getD emptyRun).final.stage = "enrichment" ∨
      ((runOrderWorkflow "ORD-10" [⟨"A", 1⟩] 2 0 allOkEnv
        [.approveSignal ⟨"boss"⟩]).getD emptyRun).final.stage = "reserve" ∨
      ((runOrderWorkflow "ORD-10" [⟨"A", 1⟩] 2 0 allOkEnv
        [.approveSignal ⟨"boss"⟩]).getD emptyRun).final.stage = "payment" ∨
      ((runOrderWorkflow "ORD-10" [⟨"A", 1⟩] 2 0 allOkEnv
        [.approveSignal ⟨"boss"⟩]).getD emptyRun).final.stage = "status-update") :=
  stage_lifecycle_monotone "ORD-10" [⟨"A", 1⟩] 2 0 allOkEnv [.approveSignal ⟨"boss"⟩]
    ((runOrderWorkflow "ORD-10" [⟨"A", 1⟩] 2 0 allOkEnv
      [.approveSignal ⟨"boss"⟩]).getD emptyRun) rfl

/-- C7: the wait-loop flags only move from false to true and `reserved`
and `charged` are untouched by signal handling; a loop entered with both
decision flags unset can never exit with both approval and cancellation
recorded (first decision wins); every run invokes the payment activity at
most once; and in the concrete duplicate-approval scenario the second
approval signal is left unconsumed and payment runs exactly once. -/
theorem decision_flags_monotone_and_payment_once :
    (∀ (s : OrderWorkflowStatus) (e : WaitEvent),
      (handleWaitEvent s e).reserved = s.reserved ∧
      (handleWaitEvent s e).charged = s.charged ∧
      ((handleWaitEvent s e).paymentApproved = s.paymentApproved ∨
       (handleWaitEvent s e).paymentApproved = true) ∧
      ((handleWaitEvent s e).cancelled = s.cancelled ∨
       (handleWaitEvent s e).cancelled = true)) ∧
    (∀ (s s' : OrderWorkflowStatus) (evs left : List WaitEvent),
      s.paymentApproved = false → s.cancelled = false →
      awaitApproval s evs = some (s', left) →
      ¬(s'.paymentApproved = true ∧ s'.cancelled = true)) ∧
    (∀ (orderID : String) (items : List LineItem) (version now : Int) (env : ActivityEnv)
        (events : List WaitEvent) (r : RunResult),
      runOrderWorkflow orderID items version now env events = some r →
      countCalls "ProcessPayment" r.trace ≤ 1 ∧
      ¬(r.final.paymentApproved = true ∧ r.final.cancelled = true)) ∧
    (∃ r, runOrderWorkflow "o10" [⟨"A", 1⟩] 2 0 allOkEnv
        [.approveSignal ⟨"first"⟩, .approveSignal ⟨"second"⟩] = some r ∧
      countCalls "ProcessPayment" r.trace = 1 ∧
      r.leftoverEvents = [.approveSignal ⟨"second"⟩] ∧
      r.final.paymentApproved = true ∧ r.final.cancelled = false) := by
  refine ⟨?_, ?_, ?_, ?_⟩
  · intro s e
    cases e <;> simp [handleWaitEvent]
  · intro s s' evs left hA hC h
    exact awaitApproval_not_both evs s s' left (by simp [hA]) h
  · intro orderID items version now env events r h
    obtain ⟨-, -, hCount, hFlags, -, -⟩ :=
      runOrderWorkflow_outcomes orderID items version now env events r h
    exact ⟨hCount, hFlags⟩
  · exact ⟨_, rfl, rfl, rfl, rfl, rfl⟩

/-- Witness for C7: a cancel-first loop and a completed run at concrete
inputs. -/
theorem decision_flags_monotone_and_payment_once_witness :
    ((handleWaitEvent {} (.approveSignal ⟨"w"⟩)).reserved =
        ({} : OrderWorkflowStatus).reserved ∧
      (handleWaitEvent {} (.approveSignal ⟨"w"⟩)).charged =
        ({} : OrderWorkflowStatus).charged ∧
      ((handleWaitEvent {} (.approveSignal ⟨"w"⟩)).paymentApproved =
          ({} : OrderWorkflowStatus).paymentApproved ∨
        (handleWaitEvent {} (.approveSignal ⟨"w"⟩)).paymentApproved = true) ∧
      ((handleWaitEvent {} (.approveSignal ⟨"w"⟩)).cancelled =
          ({} : OrderWorkflowStatus).cancelled ∨
        (handleWaitEvent {} (.approveSignal ⟨"w"⟩)).cancelled = true)) ∧
    ¬((((awaitApproval {} [.cancelSignal ⟨"r"⟩]).getD ({}, [])).1.paymentApproved = true ∧
       ((awaitApproval {} [.cancelSignal ⟨"r"⟩]).getD ({}, [])).1.cancelled = true)) ∧
    (countCalls "ProcessPayment"
        ((runOrderWorkflow "o11" [⟨"A", 1⟩] 2 0 allOkEnv
          [.approveSignal ⟨"x"⟩]).getD emptyRun).trace ≤ 1 ∧
      ¬(((runOrderWorkflow "o11" [⟨"A", 1⟩] 2 0 allOkEnv
            [.approveSignal ⟨"x"⟩]).getD emptyRun).final.paymentApproved = true ∧
        ((runOrderWorkflow "o11" [⟨"A", 1⟩] 2 0 allOkEnv
            [.approveSignal ⟨"x"⟩]).getD emptyRun).final.cancelled = true)) :=
  ⟨decision_flags_monotone_and_payment_once.1 {} (.approveSignal ⟨"w"⟩),
   decision_flags_monotone_and_payment_once.2.1 {}
     ((awaitApproval {} [.cancelSignal ⟨"r"⟩]).getD ({}, [])).1
     [.cancelSignal ⟨"r"⟩]
     ((awaitApproval {} [.cancelSignal ⟨"r"⟩]).getD ({}, [])).2 rfl rfl rfl,
   decision_flags_monotone_and_payment_once.2.2.1 "o11" [⟨"A", 1⟩] 2 0 allOkEnv
     [.approveSignal ⟨"x"⟩]
     ((runOrderWorkflow "o11" [⟨"A", 1⟩] 2 0 allOkEnv
       [.approveSignal ⟨"x"⟩]).getD emptyRun) rfl⟩

/-- The spec's concrete add-item scenario: items start as [{A,2}], an
`AddLineItem{B,1}` signal arrives during the approval wait, then approval. -/
def addItemScenario : Option RunResult :=
  runOrderWorkflow "order-1" [⟨"A", 2⟩] 2 0 allOkEnv
    [.addItemSignal ⟨"B", 1⟩, .approveSignal ⟨"boss"⟩]

/-- C8 counterexample: in the add-item scenario, the payment operation is
invoked with only the order ID — its argument list carries no line-item
data at all, so the payment invocation does not reflect the two items. -/
theorem payment_invocation_carries_no_items :
    (addItemScenario.map fun r =>
      (r.trace.filter (fun i => i.name == "ProcessPayment")).map Invocation.args) =
      some [[.str "order-1"]] ∧
    ActivityArg.items [⟨"A", 2⟩, ⟨"B", 1⟩] ∉ ([.str "order-1"] : List ActivityArg) :=
  ⟨rfl, by decide⟩

/-- C8 (amended): an add-line-item signal during the approval wait appends
the item at the end of the items sequence and leaves the decision flags
untouched (so it never exits the wait loop); in the concrete scenario the
final items are [{A,2},{B,1}], the saga completes, and the workflow state
at payment time holds both items — but the payment activity itself is
invoked exactly once with only the order ID and receives no item data. -/
theorem addItem_midwait_appends_and_payment_id_only :
    (∀ (s : OrderWorkflowStatus) (it : LineItem),
      handleWaitEvent s (.addItemSignal it) = { s with items := s.items ++ [it] }) ∧
    (∃ r, addItemScenario = some r ∧
      r.final.items = [⟨"A", 2⟩, ⟨"B", 1⟩] ∧ r.final.stage = "completed" ∧
      r.final.charged = true ∧ countCalls "ProcessPayment" r.trace = 1 ∧
      (r.trace.filter (fun i => i.name == "ProcessPayment")).map Invocation.args =
        [[.str "order-1"]]) :=
  ⟨fun _s _it => rfl, ⟨_, rfl, rfl, rfl, rfl, rfl, rfl⟩⟩

/-- C9 (code bug): the duration handed to the per-iteration approval timer
is computed with `time.Until`, i.e. from the ambient wall clock at the
moment the iteration physically executes; two executions of the same loop
iteration at different wall-clock instants schedule timers of different
durations, contradicting the required independence from physical execution
time (the repository's own lessons mandate `workflow.Now`, never
`time.Now`, inside workflow code). -/
theorem timer_duration_depends_on_wall_clock :
    iterationTimerDuration 900 0 ≠ iterationTimerDuration 900 60 ∧
    iterationTimerDuration 900 0 = 900 ∧ iterationTimerDuration 900 60 = 840 := by
  refine ⟨?_, rfl, rfl⟩
  decide

end OrderSaga
